import Mathlib

/-!
Verification development for the solana-trade repository.

Shallow embedding of the pure decision logic of:
- src/trader.ts (SolanaTrade.trade, chooseProvider, computeProviderTip,
  normalizeSlippage)
- src/builder.ts (buildTransaction)
- src/markets/meteora-dlmm/client.ts (normalizeKey, ensureRawPairs,
  findMintWsolPair, stripNonEssentialInstructions)
- src/markets/meteora-damm-v1/client.ts (getPairCacheKey)
- src/markets/meteora-damm-v2/client.ts (getPairCacheKey,
  fetchPoolsForTokenPair, chooseBestPool)
- the Raydium CLMM client (getBuyInstructions)

JavaScript numbers are modelled as rationals (ℚ) plus an explicit
non-finite marker where the source tests Number.isFinite.  Network and
on-chain effects (venue SDK calls, HTTP listings fetches, disk reads) are
modelled by passing their results as explicit arguments; the cache logic
is modelled as explicit state passing.
-/

namespace SolanaTrade

/-- Ledger instruction model.  The source only distinguishes instructions
by the program they address: compute-budget instructions (owned by the
builder), system transfers created by createTipInstruction (tips), and
opaque venue-emitted swap instructions. -/
inductive Instruction where
  | computeBudget (payload : ℕ)
  | transfer (dest : String) (source : String) (amountSol : ℚ)
  | venue (programId : String) (payload : ℕ)
deriving DecidableEq

instance : Inhabited Instruction := ⟨Instruction.computeBudget 0⟩

/-- Test for a compute-budget instruction (programId equality against
ComputeBudgetProgram.programId in the source). -/
def isComputeBudgetIx : Instruction → Bool
  | Instruction.computeBudget _ => true
  | _ => false

/-- Test for a tip instruction (a system transfer produced by
createTipInstruction). -/
def isTipIx : Instruction → Bool
  | Instruction.transfer _ _ _ => true
  | _ => false

/-- Test for a venue-emitted swap instruction. -/
def isVenueIx : Instruction → Bool
  | Instruction.venue _ _ => true
  | _ => false

/-- Modelled from the spec: helpers/instructions.ts is not among the
sources.  createTipInstruction builds one system transfer of the given
SOL amount from the payer to the tip destination. -/
def createTipInstruction (dest : String) (payer : String) (amountSol : ℚ) : Instruction :=
  Instruction.transfer dest payer amountSol

/-- Modelled from the spec: helpers/instructions.ts is not among the
sources.  Per the spec (section 8, end-to-end scenarios) the compiled
transaction begins with exactly one compute-budget instruction, so
createComputeBudgetInstructions returns a one-element list. -/
def createComputeBudgetInstructions (_priorityFeeSol : ℚ) : List Instruction :=
  [Instruction.computeBudget 0]

/-- Modelled from the spec: helpers/constants.ts is not among the
sources.  The spec's data flow and scenarios add a tip instruction only
for a positive requested tip (section 4.5 step 1, section 8), so the
developer-tip rate constant is modelled as zero. -/
def DEV_TIP_RATE : ℚ := 0

/-- Swap direction (swapDirection constant table). -/
inductive Direction where
  | BUY
  | SELL
deriving DecidableEq

/-- Accelerated relay providers (senders constant table). -/
inductive Provider where
  | NOZOMI
  | ASTRALANE
  | JITO
deriving DecidableEq

/-- Constant-table values consumed by trader.ts that live in the
helpers/constants module (minimum tips, dev-tip configuration); kept
abstract as parameters of the embedding. -/
structure TipConstants where
  nozomiMinTipSol : ℚ
  astralaneMinTipSol : ℚ
  jitoMinTipSol : ℚ
  devTipRate : ℚ
  devTipAddress : String

/-- Minimum tip for a provider, as selected in computeProviderTip. -/
def TipConstants.minTip (c : TipConstants) : Provider → ℚ
  | Provider.NOZOMI => c.nozomiMinTipSol
  | Provider.ASTRALANE => c.astralaneMinTipSol
  | Provider.JITO => c.jitoMinTipSol

/-- JavaScript number: a finite rational or one of the non-finite
values rejected by Number.isFinite. -/
inductive JsNum where
  | num (q : ℚ)
  | nan
  | inf
  | negInf
deriving DecidableEq

/-- Number.isFinite. -/
def JsNum.isFinite : JsNum → Bool
  | JsNum.num _ => true
  | _ => false

/-- SolanaTrade.normalizeSlippage (trader.ts lines 204-208): rejects a
non-finite percentage, clamps to [0, 100] and divides by 100. -/
def normalizeSlippage (slippagePercent : JsNum) : Except String ℚ :=
  match slippagePercent with
  | JsNum.num q => Except.ok (max 0 (min 100 q) / 100)
  | _ => Except.error "Invalid slippage"

/-- SolanaTrade.chooseProvider (trader.ts lines 220-232): no tip means
the standard sender; an explicit provider is honoured once a tip is
present; otherwise tips of at least 0.001 route to Nozomi and smaller
tips to Astralane. -/
def chooseProvider (provided : Option Provider) (tipAmountSol : ℚ) : Option Provider :=
  let tip := tipAmountSol
  if tip ≤ 0 then none
  else
    match provided with
    | some p => some p
    | none => if tip ≥ 0.001 then some Provider.NOZOMI else some Provider.ASTRALANE

/-- SolanaTrade.computeProviderTip (trader.ts lines 251-265): final tip
is the maximum of the user tip and the provider minimum; the tip address
is drawn from the provider's address pool (randomness injected as the
pick argument). -/
def computeProviderTip (c : TipConstants) (pick : Provider → String)
    (provider : Provider) (userTip : ℚ) : String × ℚ :=
  (pick provider, max userTip (c.minTip provider))

/-- Parameters of buildTransaction (builder.ts) that matter to its pure
assembly logic; the venue adapter invocation is a network effect whose
resulting instruction list is passed in as marketInstructions. -/
structure BuildTxParams where
  walletPubkey : String
  slippage : ℚ
  priorityFeeSol : ℚ
  tipAmountSol : ℚ
  tipAddressEnv : Option String
  marketInstructions : List Instruction

/-- buildTransaction (builder.ts lines 25-79): validates the slippage
fraction, then lays out compute-budget instructions, the optional
env-configured upfront tip, and the venue swap instructions in that
order. -/
def buildTransaction (p : BuildTxParams) : Except String (List Instruction) :=
  if p.slippage < 0 ∨ p.slippage > 1 then
    Except.error "slippage must be between 0 and 1"
  else
    let budgetIx := createComputeBudgetInstructions p.priorityFeeSol
    let tipIxs :=
      if p.tipAmountSol > 0 then
        match p.tipAddressEnv with
        | some addr => [createTipInstruction addr p.walletPubkey p.tipAmountSol]
        | none => []
      else []
    Except.ok (budgetIx ++ tipIxs ++ p.marketInstructions)

/-- Caller-facing arguments of SolanaTrade.trade with the defaults
applied in its destructuring (trader.ts lines 80-91). -/
structure TradeArgs where
  direction : Direction
  amount : ℚ
  slippagePercent : JsNum
  priorityFeeSol : ℚ := 0.0001
  tipAmountSol : ℚ := 0
  providedSender : Option Provider := none
  walletPubkey : String

/-- SolanaTrade.trade (trader.ts lines 65-197), send=false path: builds
the transaction (note that trade does not forward tipAmountSol to
buildTransaction, so the builder's env-tip branch is off), appends the
dev tip for buys when amount * devTipRate is positive, then appends the
provider tip when an accelerated provider is selected and the user tip
is positive.  Returns the instruction list and the selected provider. -/
def trade (c : TipConstants) (pick : Provider → String) (tipAddressEnv : Option String)
    (marketInstructions : List Instruction) (p : TradeArgs) :
    Except String (List Instruction × Option Provider) :=
  match normalizeSlippage p.slippagePercent with
  | Except.error e => Except.error e
  | Except.ok slippageFraction =>
    let provider := chooseProvider p.providedSender p.tipAmountSol
    match buildTransaction {
        walletPubkey := p.walletPubkey
        slippage := slippageFraction
        priorityFeeSol := p.priorityFeeSol
        tipAmountSol := 0
        tipAddressEnv := tipAddressEnv
        marketInstructions := marketInstructions } with
    | Except.error e => Except.error e
    | Except.ok tx0 =>
      let tx1 :=
        if p.direction = Direction.BUY then
          let devTipSol := p.amount * c.devTipRate
          if devTipSol > 0 then
            tx0 ++ [createTipInstruction c.devTipAddress p.walletPubkey devTipSol]
          else tx0
        else tx0
      let tx2 :=
        match provider with
        | some prov =>
          if p.tipAmountSol > 0 then
            let addrTip := computeProviderTip c pick prov p.tipAmountSol
            if addrTip.2 > 0 then
              tx1 ++ [createTipInstruction addrTip.1 p.walletPubkey addrTip.2]
            else tx1
          else tx1
        | none => tx1
      Except.ok (tx2, provider)

/-- Dev-tip instructions appended by trade (trader.ts lines 113-119),
as a function of constants and arguments: a single transfer of
amount * devTipRate for buys when that product is positive. -/
def devTipPart (c : TipConstants) (p : TradeArgs) : List Instruction :=
  if p.direction = Direction.BUY ∧ p.amount * c.devTipRate > 0 then
    [Instruction.transfer c.devTipAddress p.walletPubkey (p.amount * c.devTipRate)]
  else []

/-- Provider-tip instructions appended by trade (trader.ts lines
121-128), as a function of constants and arguments. -/
def provTipPart (c : TipConstants) (pick : Provider → String) (p : TradeArgs) :
    List Instruction :=
  match chooseProvider p.providedSender p.tipAmountSol with
  | some prov =>
    if p.tipAmountSol > 0 ∧ max p.tipAmountSol (c.minTip prov) > 0 then
      [Instruction.transfer (pick prov) p.walletPubkey (max p.tipAmountSol (c.minTip prov))]
    else []
  | none => []

/-- Raw DLMM pair record as consumed from the dlmm-api snapshot
(fields used by findMintWsolPair); numeric fields are already coerced
as the source does with Number(...) and parseFloat. -/
structure DlmmPair where
  mint_x : String
  mint_y : String
  reserve_x_amount : ℚ
  reserve_y_amount : ℚ
  liquidity : ℚ
  address : String
deriving DecidableEq

/-- Target-asset-side reserve of a DLMM pair record: reserve_x when
mint_x is the target token, reserve_y otherwise (dlmm client.ts line
110-111). -/
def dlmmTokenReserve (token : String) (it : DlmmPair) : ℚ :=
  if it.mint_x = token then it.reserve_x_amount else it.reserve_y_amount

/-- Per-record score used by the DLMM reduce (client.ts line 113): the
token-side reserve when positive, else the record's total liquidity. -/
def dlmmScore (token : String) (it : DlmmPair) : ℚ :=
  if dlmmTokenReserve token it > 0 then dlmmTokenReserve token it else it.liquidity

/-- One step of the reduce in findMintWsolPair (client.ts lines
109-116): keep the accumulator unless the new record's score is
strictly greater. -/
def dlmmBestStep (token : String) (acc : Option (String × ℚ)) (it : DlmmPair) :
    Option (String × ℚ) :=
  let score := dlmmScore token it
  match acc with
  | none => some (it.address, score)
  | some as' => if score > as'.2 then some (it.address, score) else some as'

/-- The reduce of findMintWsolPair over the filtered subset: address and
score of the selected pool, none when the subset is empty. -/
def dlmmPickBest (token : String) (subset : List DlmmPair) : Option (String × ℚ) :=
  subset.foldl (dlmmBestStep token) none

/-- The strict-equality mint filter of findMintWsolPair (client.ts line
106). -/
def dlmmPairMatch (token wsol : String) (it : DlmmPair) : Bool :=
  (it.mint_x = token ∧ it.mint_y = wsol) ∨ (it.mint_y = token ∧ it.mint_x = wsol)

/-- Snapshot strategy of findMintWsolPair (client.ts lines 104-118):
filter the raw snapshot by exact mints and pick the best-scored record's
address. -/
def dlmmSnapshotLookup (items : List DlmmPair) (token wsol : String) : Option String :=
  (dlmmPickBest token (items.filter (dlmmPairMatch token wsol))).map Prod.fst

/-- On-chain lb-pair record as seen by the full registry scan
(DLMM.getLbPairs) in findMintWsolPair. -/
structure LbPairAccount where
  tokenXMint : String
  tokenYMint : String
  publicKey : String
deriving DecidableEq

/-- Full registry scan of findMintWsolPair (client.ts lines 133-144):
first account whose mint pair matches in either orientation. -/
def dlmmScanLookup (accounts : List LbPairAccount) (token wsol : String) : Option String :=
  (accounts.find? (fun acc =>
    (acc.tokenXMint = token ∧ acc.tokenYMint = wsol) ∨
    (acc.tokenYMint = token ∧ acc.tokenXMint = wsol))).map LbPairAccount.publicKey

/-- MeteoraDlmmClient.findMintWsolPair (client.ts lines 98-147) with its
network-dependent stages passed in: the raw snapshot, the prebuilt
pair-cache lookup result, the two SDK-helper calls (token/wsol then
wsol/token order), and the on-chain registry.  Strategies run in fixed
order and the first match short-circuits; only when all fail does it
throw the PoolNotFound error. -/
def findMintWsolPair (items : List DlmmPair) (token wsol : String)
    (cacheLookup : Option String) (sdkHelperTW sdkHelperWT : Option String)
    (registry : List LbPairAccount) : Except String String :=
  match dlmmSnapshotLookup items token wsol with
  | some addr => Except.ok addr
  | none =>
    match cacheLookup with
    | some cached => Except.ok cached
    | none =>
      match sdkHelperTW.orElse (fun _ => sdkHelperWT) with
      | some pair => Except.ok pair
      | none =>
        match dlmmScanLookup registry token wsol with
        | some found => Except.ok found
        | none => Except.error "Meteora DLMM pool for mint-WSOL not found"

/-- MeteoraDlmmClient.normalizeKey (client.ts lines 30-32): plain
colon-joined concatenation in argument order. -/
def normalizeKey (a b : String) : String :=
  a ++ ":" ++ b

/-- getPairCacheKey of the DAMM v1 and v2 clients (damm-v1 client.ts
lines 22-25, damm-v2 client.ts lines 32-35): the two identifiers are
sorted and dash-joined, so the key is order-independent. -/
def getPairCacheKey (a b : String) : String :=
  let x := if a ≤ b then a else b
  let y := if a ≤ b then b else a
  x ++ "-" ++ y

/-- stripNonEssentialInstructions, shared shape of all four Meteora
clients (e.g. dlmm client.ts lines 214-217): drop every compute-budget
instruction from the SDK-built transaction. -/
def stripNonEssentialInstructions (ixs : List Instruction) : List Instruction :=
  ixs.filter (fun ix => ¬ isComputeBudgetIx ix)

/-- Post-processing of the Meteora adapters' getBuyInstructions /
getSellInstructions: the SDK transaction's instruction list is stripped
of compute-budget instructions before being returned. -/
def meteoraAdapterInstructions (sdkInstructions : List Instruction) : List Instruction :=
  stripNonEssentialInstructions sdkInstructions

/-- Post-processing of RaydiumClmmClient.getBuyInstructions /
getSellInstructions: the SDK transaction's instruction list is returned
unchanged (make.transaction.instructions, no stripping). -/
def raydiumClmmAdapterInstructions (sdkInstructions : List Instruction) : List Instruction :=
  sdkInstructions

/-- In-memory tier of the DLMM raw-pairs cache (static fields rawPairs
and rawLoadedAt of MeteoraDlmmClient); times in milliseconds. -/
structure DlmmCacheState where
  rawPairs : List DlmmPair
  rawLoadedAt : ℤ
deriving DecidableEq

/-- On-disk cache file as observed by ensureRawPairs: its mtime and the
parse result of its contents (none models a corrupt or non-array
payload, which the source treats as a miss). -/
structure DiskEntry where
  mtimeMs : ℤ
  parsed : Option (List DlmmPair)
deriving DecidableEq

/-- Result of one ensureRawPairs call: the returned snapshot, the new
in-memory state, and whether the network was fetched. -/
structure CacheCallResult where
  result : List DlmmPair
  state : DlmmCacheState
  networkHit : Bool
deriving DecidableEq

/-- MeteoraDlmmClient.ensureRawPairs (dlmm client.ts lines 39-70):
memory tier first (fresh and non-empty), then the disk file (fresh
mtime, array payload), then the network; the fetched list is stored in
memory with loadedAt = now.  The disk write is best-effort and not
modelled.  The network result (what a successful fetch would return) is
passed in as net. -/
def ensureRawPairs (st : DlmmCacheState) (now ttl : ℤ) (disk : Option DiskEntry)
    (net : List DlmmPair) : CacheCallResult :=
  if now - st.rawLoadedAt < ttl ∧ st.rawPairs ≠ [] then
    ⟨st.rawPairs, st, false⟩
  else
    match disk with
    | some d =>
      if now - d.mtimeMs < ttl then
        match d.parsed with
        | some data => ⟨data, ⟨data, now⟩, false⟩
        | none => ⟨net, ⟨net, now⟩, true⟩
      else ⟨net, ⟨net, now⟩, true⟩
    | none => ⟨net, ⟨net, now⟩, true⟩

/-- In-memory entry of the DAMM v2 per-pair pool cache (static pairCache
of MeteoraDammV2Client): data plus loadedAt; pools kept abstract as
strings. -/
structure DammV2MemEntry where
  data : List String
  loadedAt : ℤ
deriving DecidableEq

/-- Result of one fetchPoolsForTokenPair call on the DAMM v2 client. -/
structure DammV2CallResult where
  result : List String
  networkHit : Bool
deriving DecidableEq

/-- MeteoraDammV2Client.fetchPoolsForTokenPair (damm-v2 client.ts lines
54-94), cache-decision logic: a fresh in-memory entry is returned with
no emptiness requirement; else a fresh parsed disk entry; else the
network result. -/
def dammV2FetchPools (mem : Option DammV2MemEntry) (now ttl : ℤ)
    (disk : Option (ℤ × Option (List String))) (net : List String) : DammV2CallResult :=
  match mem with
  | some m =>
    if now - m.loadedAt < ttl then ⟨m.data, false⟩
    else dammV2FetchPoolsDisk now ttl disk net
  | none => dammV2FetchPoolsDisk now ttl disk net
where
  dammV2FetchPoolsDisk (now ttl : ℤ) (disk : Option (ℤ × Option (List String)))
      (net : List String) : DammV2CallResult :=
    match disk with
    | some (mtime, parsed) =>
      if now - mtime < ttl then
        match parsed with
        | some data => ⟨data, false⟩
        | none => ⟨net, true⟩
      else ⟨net, true⟩
    | none => ⟨net, true⟩

/-- Positional property used by the spec's tip-ordering scenario: every
tip instruction of the list occurs strictly before every venue swap
instruction. -/
def tipBeforeVenues (l : List Instruction) : Prop :=
  ∀ i j, (hi : i < l.length) → (hj : j < l.length) →
    isTipIx (l.get ⟨i, hi⟩) = true → isVenueIx (l.get ⟨j, hj⟩) = true → i < j

end SolanaTrade

namespace SolanaTrade

/-- Venue instructions are not compute-budget instructions. -/
lemma isVenueIx_not_computeBudget (ix : Instruction) (h : isVenueIx ix = true) :
    isComputeBudgetIx ix = false := by
  cases ix <;> simp_all [isVenueIx, isComputeBudgetIx]

/-- Venue instructions are not tip instructions. -/
lemma isVenueIx_not_tip (ix : Instruction) (h : isVenueIx ix = true) :
    isTipIx ix = false := by
  cases ix <;> simp_all [isVenueIx, isTipIx]

/-- buildTransaction fails with the slippage message exactly on
out-of-range slippage. -/
lemma buildTransaction_error_iff (p : BuildTxParams) (h : p.slippage < 0 ∨ p.slippage > 1) :
    buildTransaction p = Except.error "slippage must be between 0 and 1" := by
  unfold buildTransaction
  rw [if_pos h]

/-- buildTransaction succeeds whenever the slippage is in range. -/
lemma buildTransaction_ok_of_bounds (p : BuildTxParams) (h0 : 0 ≤ p.slippage)
    (h1 : p.slippage ≤ 1) : ∃ l, buildTransaction p = Except.ok l := by
  unfold buildTransaction
  rw [if_neg (by push_neg; exact ⟨h0, h1⟩)]
  exact ⟨_, rfl⟩

/-- The clamped slippage fraction produced by normalizeSlippage is
non-negative. -/
lemma slippage_frac_nonneg (q : ℚ) : 0 ≤ max 0 (min 100 q) / 100 := by
  apply div_nonneg (le_max_left 0 _)
  norm_num

/-- The clamped slippage fraction produced by normalizeSlippage is at
most one. -/
lemma slippage_frac_le_one (q : ℚ) : max 0 (min 100 q) / 100 ≤ 1 := by
  rw [div_le_one (by norm_num : (0:ℚ) < 100)]
  exact max_le (by norm_num) (min_le_left 100 q)

/-- On a finite argument, normalizeSlippage returns the clamped
fraction. -/
lemma normalizeSlippage_num (q : ℚ) :
    normalizeSlippage (JsNum.num q) = Except.ok (max 0 (min 100 q) / 100) := rfl

/-- buildTransaction succeeds on in-range slippage, and with a zero
builder-level tip its output is the compute-budget instruction followed
by the market instructions. -/
lemma buildTransaction_ok (p : BuildTxParams) (h0 : 0 ≤ p.slippage)
    (h1 : p.slippage ≤ 1) (htip : p.tipAmountSol = 0) :
    buildTransaction p = Except.ok (Instruction.computeBudget 0 :: p.marketInstructions) := by
  unfold buildTransaction
  rw [if_neg (by push_neg; exact ⟨h0, h1⟩)]
  simp [createComputeBudgetInstructions, htip]

/-- Normal form of trade on a finite slippage argument: the builder
skeleton, then the dev-tip part, then the provider-tip part, paired
with the selected provider. -/
lemma trade_normal_form (c : TipConstants) (pick : Provider → String)
    (env : Option String) (mkt : List Instruction) (p : TradeArgs) (q : ℚ)
    (hs : p.slippagePercent = JsNum.num q) :
    trade c pick env mkt p =
      Except.ok ((Instruction.computeBudget 0 :: mkt) ++ devTipPart c p ++ provTipPart c pick p,
        chooseProvider p.providedSender p.tipAmountSol) := by
  unfold trade
  rw [hs, normalizeSlippage_num]
  dsimp only
  rw [buildTransaction_ok _ (slippage_frac_nonneg q) (slippage_frac_le_one q) rfl]
  dsimp only
  unfold devTipPart provTipPart
  cases hprov : chooseProvider p.providedSender p.tipAmountSol with
  | none =>
    by_cases hdir : p.direction = Direction.BUY <;>
      by_cases hdev : p.amount * c.devTipRate > 0 <;>
        simp [hdir, hdev, createTipInstruction]
  | some prov =>
    by_cases htp : p.tipAmountSol > 0
    · have hmax : p.tipAmountSol ⊔ c.minTip prov > 0 :=
        lt_of_lt_of_le htp (le_max_left _ _)
      by_cases hdir : p.direction = Direction.BUY <;>
        by_cases hdev : p.amount * c.devTipRate > 0 <;>
          simp [hdir, hdev, htp, hmax, computeProviderTip, createTipInstruction]
    · by_cases hdir : p.direction = Direction.BUY <;>
        by_cases hdev : p.amount * c.devTipRate > 0 <;>
          simp [hdir, hdev, htp, computeProviderTip, createTipInstruction]

/-- Claim C7: buildTransaction rejects every slippage value strictly
below 0 or strictly above 1 with the invalid-parameter error before
constructing any instructions, and accepts slippage of exactly 0 and
exactly 1 (in-range slippage always yields an instruction list). -/
theorem claim_C7_slippage_validation (p : BuildTxParams) :
    ((p.slippage < 0 ∨ p.slippage > 1) →
      buildTransaction p = Except.error "slippage must be between 0 and 1") ∧
    (0 ≤ p.slippage → p.slippage ≤ 1 → ∃ l, buildTransaction p = Except.ok l) :=
  ⟨buildTransaction_error_iff p, buildTransaction_ok_of_bounds p⟩

/-- Claim C7 witness: slippage exactly 0 and exactly 1 are accepted and
slippage 2 is rejected with the invalid-parameter error. -/
theorem claim_C7_slippage_validation_witness :
    (∃ l, buildTransaction ⟨"W", 0, 0.0001, 0, none, []⟩ = Except.ok l) ∧
    (∃ l, buildTransaction ⟨"W", 1, 0.0001, 0, none, []⟩ = Except.ok l) ∧
    buildTransaction ⟨"W", 2, 0.0001, 0, none, []⟩ =
      Except.error "slippage must be between 0 and 1" :=
  ⟨(claim_C7_slippage_validation _).2 (by norm_num) (by norm_num),
   (claim_C7_slippage_validation _).2 (by norm_num) (by norm_num),
   (claim_C7_slippage_validation _).1 (by norm_num)⟩

/-- Claim C8 counterexample: the DLMM client's cache key function is
order-sensitive, so the key function is not order-independent for every
client. -/
theorem claim_C8_counterexample : normalizeKey "a" "b" ≠ normalizeKey "b" "a" := by
  decide

/-- Claim C8 (amended): the pair cache key of the DAMM v1 and DAMM v2
clients is order-independent. -/
theorem claim_C8_pair_key_order_independent (a b : String) :
    getPairCacheKey a b = getPairCacheKey b a := by
  unfold getPairCacheKey
  by_cases hab : a ≤ b
  · by_cases hba : b ≤ a
    · have h : a = b := le_antisymm hab hba
      subst h
      rfl
    · simp [hab, hba]
  · have hba : b ≤ a := le_of_not_le hab
    simp [hab, hba]

/-- Claim C10: every finite slippage percentage is clamped to [0, 100]
and divided by 100, landing in [0, 1], so the builder's out-of-range
slippage error is unreachable from the public surface; a non-finite
slippage raises the Invalid slippage error instead. -/
theorem claim_C10_slippage_normalization :
    (∀ q : ℚ, normalizeSlippage (JsNum.num q) = Except.ok (max 0 (min 100 q) / 100) ∧
      0 ≤ max 0 (min 100 q) / 100 ∧ max 0 (min 100 q) / 100 ≤ 1 ∧
      ∀ w pf ta env mkt, ∃ l,
        buildTransaction ⟨w, max 0 (min 100 q) / 100, pf, ta, env, mkt⟩ = Except.ok l) ∧
    (∀ s : JsNum, s.isFinite = false → normalizeSlippage s = Except.error "Invalid slippage") := by
  constructor
  · intro q
    refine ⟨rfl, slippage_frac_nonneg q, slippage_frac_le_one q, ?_⟩
    intro w pf ta env mkt
    exact buildTransaction_ok_of_bounds _ (slippage_frac_nonneg q) (slippage_frac_le_one q)
  · intro s hs
    cases s <;> simp_all [JsNum.isFinite, normalizeSlippage]

/-- Claim C10 witness: slippage percentage 250 is clamped to fraction 1
and NaN is rejected. -/
theorem claim_C10_slippage_normalization_witness :
    normalizeSlippage (JsNum.num 250) = Except.ok 1 ∧
    normalizeSlippage JsNum.nan = Except.error "Invalid slippage" := by
  constructor
  · rw [(claim_C10_slippage_normalization.1 250).1]
    norm_num
  · exact claim_C10_slippage_normalization.2 JsNum.nan rfl

/-- Claim C6 (code evaluated at the failing input): on an SDK
transaction containing a compute-budget instruction, the Meteora
adapters strip it but the Raydium CLMM adapter hands it to the compiler
unchanged. -/
theorem claim_C6_raydium_clmm_keeps_compute_budget :
    meteoraAdapterInstructions [Instruction.computeBudget 0, Instruction.venue "clmmSwap" 0] =
      [Instruction.venue "clmmSwap" 0] ∧
    raydiumClmmAdapterInstructions [Instruction.computeBudget 0, Instruction.venue "clmmSwap" 0] =
      [Instruction.computeBudget 0, Instruction.venue "clmmSwap" 0] ∧
    (raydiumClmmAdapterInstructions
      [Instruction.computeBudget 0, Instruction.venue "clmmSwap" 0]).countP
        (fun ix => isComputeBudgetIx ix) = 1 := by
  refine ⟨?_, rfl, ?_⟩ <;> decide

/-- Claim C5: pool resolution tries the snapshot filter, then the
prebuilt pair cache, then the SDK helper (both mint orders), then the
full registry scan, strictly in that order; each later strategy is
consulted only when every earlier one produced no match, the first
match short-circuits the rest, and only when all strategies are
exhausted does resolution fail with the distinct PoolNotFound error,
never an empty success. -/
theorem claim_C5_fallback_priority (items : List DlmmPair) (token wsol : String)
    (cacheLookup sdkHelperTW sdkHelperWT : Option String)
    (registry : List LbPairAccount) :
    (∀ a, dlmmSnapshotLookup items token wsol = some a →
      findMintWsolPair items token wsol cacheLookup sdkHelperTW sdkHelperWT registry =
        Except.ok a) ∧
    (dlmmSnapshotLookup items token wsol = none → ∀ a, cacheLookup = some a →
      findMintWsolPair items token wsol cacheLookup sdkHelperTW sdkHelperWT registry =
        Except.ok a) ∧
    (dlmmSnapshotLookup items token wsol = none → cacheLookup = none →
      ∀ a, sdkHelperTW = some a →
      findMintWsolPair items token wsol cacheLookup sdkHelperTW sdkHelperWT registry =
        Except.ok a) ∧
    (dlmmSnapshotLookup items token wsol = none → cacheLookup = none → sdkHelperTW = none →
      ∀ a, sdkHelperWT = some a →
      findMintWsolPair items token wsol cacheLookup sdkHelperTW sdkHelperWT registry =
        Except.ok a) ∧
    (dlmmSnapshotLookup items token wsol = none → cacheLookup = none → sdkHelperTW = none →
      sdkHelperWT = none → ∀ a, dlmmScanLookup registry token wsol = some a →
      findMintWsolPair items token wsol cacheLookup sdkHelperTW sdkHelperWT registry =
        Except.ok a) ∧
    (dlmmSnapshotLookup items token wsol = none → cacheLookup = none → sdkHelperTW = none →
      sdkHelperWT = none → dlmmScanLookup registry token wsol = none →
      findMintWsolPair items token wsol cacheLookup sdkHelperTW sdkHelperWT registry =
        Except.error "Meteora DLMM pool for mint-WSOL not found") := by
  refine ⟨?_, ?_, ?_, ?_, ?_, ?_⟩ <;>
    intros <;>
      simp_all [findMintWsolPair, Option.orElse]

/-- Claim C5 witness: a snapshot hit short-circuits (all other
strategies empty), and with every strategy empty resolution fails with
the PoolNotFound error. -/
theorem claim_C5_fallback_priority_witness :
    findMintWsolPair [⟨"T", "W", 1, 0, 0, "P"⟩] "T" "W" none none none [] = Except.ok "P" ∧
    findMintWsolPair [] "T" "W" none none none [] =
      Except.error "Meteora DLMM pool for mint-WSOL not found" := by
  constructor
  · refine (claim_C5_fallback_priority [⟨"T", "W", 1, 0, 0, "P"⟩] "T" "W" none none none []).1 "P" ?_
    norm_num [dlmmSnapshotLookup, dlmmPickBest, dlmmBestStep, dlmmScore, dlmmTokenReserve,
      dlmmPairMatch]
  · exact (claim_C5_fallback_priority [] "T" "W" none none none []).2.2.2.2.2
      rfl rfl rfl rfl rfl

/-- Claim C4 counterexample: the DLMM client treats a fresh but empty
in-memory snapshot as a miss, so when the listings endpoint returns an
empty array, a repeated call within the TTL hits the network a second
time even though an in-memory entry younger than the TTL exists. -/
theorem claim_C4_counterexample :
    (ensureRawPairs ⟨[], 0⟩ 100 1000 none []).networkHit = true ∧
    (ensureRawPairs ⟨[], 0⟩ 100 1000 none []).state = ⟨[], 100⟩ ∧
    (200 : ℤ) - 100 < 1000 ∧
    (ensureRawPairs ⟨[], 100⟩ 200 1000 none []).networkHit = true := by
  refine ⟨rfl, rfl, by norm_num, ?_⟩
  norm_num [ensureRawPairs]

/-- Claim C4 (amended): a cache entry aged at least the TTL is never
returned (a non-network result always comes from a memory or disk tier
whose age is strictly below the TTL); a fresh non-empty in-memory DLMM
entry suppresses the network fetch, and a fresh in-memory DAMM v2 entry
suppresses it with no non-emptiness requirement. -/
theorem claim_C4_cache_ttl (st : DlmmCacheState) (now ttl : ℤ) (disk : Option DiskEntry)
    (net : List DlmmPair) :
    ((ensureRawPairs st now ttl disk net).networkHit = false →
      (now - st.rawLoadedAt < ttl ∧ (ensureRawPairs st now ttl disk net).result = st.rawPairs) ∨
      (∃ d, disk = some d ∧ now - d.mtimeMs < ttl ∧
        d.parsed = some (ensureRawPairs st now ttl disk net).result)) ∧
    (now - st.rawLoadedAt < ttl → st.rawPairs ≠ [] →
      ensureRawPairs st now ttl disk net = ⟨st.rawPairs, st, false⟩) ∧
    (∀ (m : DammV2MemEntry) (disk2 : Option (ℤ × Option (List String))) (net2 : List String),
      now - m.loadedAt < ttl →
      dammV2FetchPools (some m) now ttl disk2 net2 = ⟨m.data, false⟩) := by
  refine ⟨?_, ?_, ?_⟩
  · intro hmiss
    unfold ensureRawPairs at hmiss ⊢
    by_cases hmem : now - st.rawLoadedAt < ttl ∧ st.rawPairs ≠ []
    · rw [if_pos hmem] at hmiss ⊢
      exact Or.inl ⟨hmem.1, rfl⟩
    · rw [if_neg hmem] at hmiss ⊢
      cases disk with
      | none => simp_all
      | some d =>
        dsimp only at hmiss ⊢
        by_cases hfresh : now - d.mtimeMs < ttl
        · rw [if_pos hfresh] at hmiss ⊢
          cases hparsed : d.parsed with
          | none => simp_all
          | some data =>
            dsimp only at hmiss ⊢
            exact Or.inr ⟨d, rfl, hfresh, hparsed⟩
        · rw [if_neg hfresh] at hmiss
          simp_all
  · intro hage hne
    unfold ensureRawPairs
    rw [if_pos ⟨hage, hne⟩]
  · intro m disk2 net2 hage
    unfold dammV2FetchPools
    dsimp only
    rw [if_pos hage]

/-- Claim C4 witness: a fresh, non-empty DLMM in-memory entry is served
without a network hit, and so is a fresh DAMM v2 in-memory entry. -/
theorem claim_C4_cache_ttl_witness :
    ensureRawPairs ⟨[⟨"T", "W", 1, 0, 0, "P"⟩], 50⟩ 100 1000 none [] =
      ⟨[⟨"T", "W", 1, 0, 0, "P"⟩], ⟨[⟨"T", "W", 1, 0, 0, "P"⟩], 50⟩, false⟩ ∧
    dammV2FetchPools (some ⟨["pool1"], 50⟩) 100 1000 none [] = ⟨["pool1"], false⟩ := by
  constructor
  · exact (claim_C4_cache_ttl ⟨[⟨"T", "W", 1, 0, 0, "P"⟩], 50⟩ 100 1000 none []).2.1
      (by norm_num) (by simp)
  · exact (claim_C4_cache_ttl ⟨[], 0⟩ 100 1000 none []).2.2 ⟨["pool1"], 50⟩ none []
      (by norm_num)

/-- Folding the DLMM best-pool step from a seeded accumulator yields a
record whose score dominates the seed and every scanned record, and
which is either the seed itself or one of the scanned records. -/
lemma dlmmFoldl_characterization (token : String) :
    ∀ (l : List DlmmPair) (a : String) (s : ℚ),
      ∃ a' s', l.foldl (dlmmBestStep token) (some (a, s)) = some (a', s') ∧
        s ≤ s' ∧
        ((a' = a ∧ s' = s) ∨ ∃ it ∈ l, it.address = a' ∧ dlmmScore token it = s') ∧
        ∀ it ∈ l, dlmmScore token it ≤ s' := by
  intro l
  induction l with
  | nil =>
    intro a s
    exact ⟨a, s, rfl, le_refl s, Or.inl ⟨rfl, rfl⟩, by simp⟩
  | cons it rest ih =>
    intro a s
    by_cases h : dlmmScore token it > s
    · obtain ⟨a', s', heq, hle, hmem, hall⟩ := ih it.address (dlmmScore token it)
      refine ⟨a', s', ?_, le_of_lt (lt_of_lt_of_le h hle), ?_, ?_⟩
      · rw [List.foldl_cons]
        have hstep : dlmmBestStep token (some (a, s)) it =
            some (it.address, dlmmScore token it) := by
          simp [dlmmBestStep, h]
        rw [hstep]
        exact heq
      · rcases hmem with ⟨ha, hs⟩ | ⟨it', hmem', h1, h2⟩
        · exact Or.inr ⟨it, List.mem_cons_self it rest, ha.symm, hs ▸ rfl⟩
        · exact Or.inr ⟨it', List.mem_cons_of_mem it hmem', h1, h2⟩
      · intro it' hm
        rcases List.mem_cons.mp hm with rfl | hm'
        · exact hle
        · exact hall it' hm'
    · obtain ⟨a', s', heq, hle, hmem, hall⟩ := ih a s
      refine ⟨a', s', ?_, hle, ?_, ?_⟩
      · rw [List.foldl_cons]
        have hstep : dlmmBestStep token (some (a, s)) it = some (a, s) := by
          simp [dlmmBestStep, h]
        rw [hstep]
        exact heq
      · rcases hmem with ⟨ha, hs⟩ | ⟨it', hmem', h1, h2⟩
        · exact Or.inl ⟨ha, hs⟩
        · exact Or.inr ⟨it', List.mem_cons_of_mem it hmem', h1, h2⟩
      · intro it' hm
        rcases List.mem_cons.mp hm with rfl | hm'
        · exact le_trans (le_of_not_lt h) hle
        · exact hall it' hm'

/-- The DLMM reduce over a two-record subset keeps the first record
unless the second one's score is strictly greater. -/
lemma dlmmPickBest_pair (token : String) (p1 p2 : DlmmPair) :
    dlmmPickBest token [p1, p2] =
      some (if dlmmScore token p1 < dlmmScore token p2
        then (p2.address, dlmmScore token p2)
        else (p1.address, dlmmScore token p1)) := by
  by_cases h : dlmmScore token p1 < dlmmScore token p2 <;>
    simp [dlmmPickBest, dlmmBestStep, h]

/-- Claim C2 counterexample: with one candidate of zero target-side
reserve but large TVL and one candidate of positive target-side reserve
but small TVL, the resolver picks the zero-reserve pool, although the
claim's rule (larger target-side reserve, TVL only when both reserves
are zero) selects the other one. -/
theorem claim_C2_counterexample :
    dlmmPickBest "T" [⟨"T", "W", 0, 0, 100, "P1"⟩, ⟨"T", "W", 5, 0, 1, "P2"⟩] =
      some ("P1", 100) ∧
    dlmmTokenReserve "T" (⟨"T", "W", 5, 0, 1, "P2"⟩ : DlmmPair) >
      dlmmTokenReserve "T" (⟨"T", "W", 0, 0, 100, "P1"⟩ : DlmmPair) := by
  constructor
  · norm_num [dlmmPickBest, dlmmBestStep, dlmmScore, dlmmTokenReserve]
  · norm_num [dlmmTokenReserve]

/-- Claim C2 (amended): each candidate is scored individually as its
target-side reserve when that is positive and its total liquidity/TVL
otherwise, and the resolver selects the candidate with the maximal
score, the earliest in iteration order on ties.  For two candidates the
second wins exactly when its score is strictly greater; when both
target-side reserves are zero the higher-TVL candidate wins; equal
scores keep the first; and in general the selected record is a member
of the subset whose score bounds every member's score. -/
theorem claim_C2_resolver_scoring :
    (∀ (token : String) (p1 p2 : DlmmPair),
      dlmmPickBest token [p1, p2] =
        some (if dlmmScore token p1 < dlmmScore token p2
          then (p2.address, dlmmScore token p2)
          else (p1.address, dlmmScore token p1))) ∧
    (∀ (token : String) (p1 p2 : DlmmPair),
      dlmmTokenReserve token p1 = 0 → dlmmTokenReserve token p2 = 0 →
      dlmmPickBest token [p1, p2] =
        some (if p1.liquidity < p2.liquidity
          then (p2.address, p2.liquidity)
          else (p1.address, p1.liquidity))) ∧
    (∀ (token : String) (p1 p2 : DlmmPair),
      dlmmScore token p1 = dlmmScore token p2 →
      dlmmPickBest token [p1, p2] = some (p1.address, dlmmScore token p1)) ∧
    (∀ (token : String) (it : DlmmPair) (rest : List DlmmPair),
      ∃ a s, dlmmPickBest token (it :: rest) = some (a, s) ∧
        (∃ p ∈ it :: rest, p.address = a ∧ dlmmScore token p = s) ∧
        ∀ p ∈ it :: rest, dlmmScore token p ≤ s) := by
  refine ⟨fun token p1 p2 => dlmmPickBest_pair token p1 p2, ?_, ?_, ?_⟩
  · intro token p1 p2 h1 h2
    have hs1 : dlmmScore token p1 = p1.liquidity := by
      simp [dlmmScore, h1]
    have hs2 : dlmmScore token p2 = p2.liquidity := by
      simp [dlmmScore, h2]
    rw [dlmmPickBest_pair, hs1, hs2]
  · intro token p1 p2 h
    rw [dlmmPickBest_pair, if_neg (by rw [← h]; exact lt_irrefl _)]
  · intro token it rest
    unfold dlmmPickBest
    rw [List.foldl_cons]
    have hstep : dlmmBestStep token none it = some (it.address, dlmmScore token it) := rfl
    rw [hstep]
    obtain ⟨a', s', heq, hle, hmem, hall⟩ :=
      dlmmFoldl_characterization token rest it.address (dlmmScore token it)
    refine ⟨a', s', heq, ?_, ?_⟩
    · rcases hmem with ⟨ha, hs⟩ | ⟨it', hmem', hh1, hh2⟩
      · exact ⟨it, List.mem_cons_self it rest, ha.symm, hs ▸ rfl⟩
      · exact ⟨it', List.mem_cons_of_mem it hmem', hh1, hh2⟩
    · intro p hp
      rcases List.mem_cons.mp hp with rfl | hp'
      · exact hle
      · exact hall p hp'

/-- Claim C2 witness: with both target-side reserves zero, the
higher-TVL candidate wins. -/
theorem claim_C2_resolver_scoring_witness :
    dlmmPickBest "T" [⟨"T", "W", 0, 0, 3, "A"⟩, ⟨"T", "W", 0, 0, 7, "B"⟩] = some ("B", 7) := by
  have h := claim_C2_resolver_scoring.2.1 "T" ⟨"T", "W", 0, 0, 3, "A"⟩ ⟨"T", "W", 0, 0, 7, "B"⟩
    (by norm_num [dlmmTokenReserve]) (by norm_num [dlmmTokenReserve])
  rw [h]
  norm_num

/-- A tip of 0.002 with no explicit sender selects Nozomi. -/
lemma chooseProvider_two_thousandths :
    chooseProvider none 0.002 = some Provider.NOZOMI := by
  norm_num [chooseProvider]

/-- With a tip of 0.002 and no explicit sender, the provider-tip part
is one transfer of max(0.002, Nozomi minimum) to the picked Nozomi tip
address. -/
lemma provTipPart_nozomi (c : TipConstants) (pick : Provider → String) (p : TradeArgs)
    (ht : p.tipAmountSol = 0.002) (hp : p.providedSender = none) :
    provTipPart c pick p =
      [Instruction.transfer (pick Provider.NOZOMI) p.walletPubkey
        (max 0.002 c.nozomiMinTipSol)] := by
  unfold provTipPart
  rw [hp, ht, chooseProvider_two_thousandths]
  have h1 : (0.002 : ℚ) > 0 := by norm_num
  have h2 : max (0.002 : ℚ) (c.minTip Provider.NOZOMI) > 0 :=
    lt_of_lt_of_le h1 (le_max_left _ _)
  simp [h1, h2, TipConstants.minTip]

/-- Claim C1 counterexample: a sell with tip 0.002 and no explicit
backend produces exactly one tip instruction, but it is appended after
the venue swap instruction, not between the compute-budget instruction
and the swap instructions as the claim states. -/
theorem claim_C1_counterexample :
    trade ⟨0.001, 0.00001, 0.001, 0, "DEV"⟩ (fun _ => "NOZ") none
        [Instruction.venue "dlmmSwap" 0]
        ⟨Direction.SELL, 1, JsNum.num 1, 0.0001, 0.002, none, "WALLET"⟩ =
      Except.ok ([Instruction.computeBudget 0, Instruction.venue "dlmmSwap" 0,
        Instruction.transfer "NOZ" "WALLET" 0.002], some Provider.NOZOMI) ∧
    ([Instruction.computeBudget 0, Instruction.venue "dlmmSwap" 0,
        Instruction.transfer "NOZ" "WALLET" 0.002] : List Instruction).countP
      (fun ix => isTipIx ix) = 1 ∧
    ¬ tipBeforeVenues [Instruction.computeBudget 0, Instruction.venue "dlmmSwap" 0,
        Instruction.transfer "NOZ" "WALLET" 0.002] := by
  refine ⟨?_, by decide, ?_⟩
  · have h := trade_normal_form ⟨0.001, 0.00001, 0.001, 0, "DEV"⟩ (fun _ => "NOZ") none
      [Instruction.venue "dlmmSwap" 0]
      ⟨Direction.SELL, 1, JsNum.num 1, 0.0001, 0.002, none, "WALLET"⟩ 1 rfl
    rw [h, provTipPart_nozomi _ _ _ rfl rfl]
    rw [max_eq_left (by norm_num : (0.001 : ℚ) ≤ 0.002)]
    norm_num [devTipPart, chooseProvider]
  · intro hord
    have h21 := hord 2 1 (by norm_num) (by norm_num) rfl rfl
    exact absurd h21 (by norm_num)

/-- Claim C1 (amended): for every trade request with tip 0.002 and no
explicitly requested backend, the router selects Nozomi (the 0.001
threshold), the final tip equals max(0.002, Nozomi's minimum tip), and
exactly one provider tip instruction is appended at the end of the
transaction, after the venue swap instructions (preceded, for buys with
a positive dev-tip amount, by the dev tip instruction). -/
theorem claim_C1_amended_high_tip_routing (c : TipConstants) (pick : Provider → String)
    (env : Option String) (mkt : List Instruction) (p : TradeArgs) (q : ℚ)
    (hs : p.slippagePercent = JsNum.num q)
    (ht : p.tipAmountSol = 0.002)
    (hp : p.providedSender = none) :
    chooseProvider p.providedSender p.tipAmountSol = some Provider.NOZOMI ∧
    trade c pick env mkt p =
      Except.ok ((Instruction.computeBudget 0 :: mkt) ++ devTipPart c p ++
        [Instruction.transfer (pick Provider.NOZOMI) p.walletPubkey
          (max 0.002 c.nozomiMinTipSol)], some Provider.NOZOMI) ∧
    (devTipPart c p = [] ∨ devTipPart c p =
      [Instruction.transfer c.devTipAddress p.walletPubkey (p.amount * c.devTipRate)]) := by
  have hprov : chooseProvider p.providedSender p.tipAmountSol = some Provider.NOZOMI := by
    rw [hp, ht]
    exact chooseProvider_two_thousandths
  refine ⟨hprov, ?_, ?_⟩
  · rw [trade_normal_form c pick env mkt p q hs, provTipPart_nozomi c pick p ht hp, hprov]
  · unfold devTipPart
    by_cases h : p.direction = Direction.BUY ∧ p.amount * c.devTipRate > 0
    · rw [if_pos h]
      exact Or.inr rfl
    · rw [if_neg h]
      exact Or.inl rfl

/-- Claim C1 witness: concrete sell with tip 0.002, no explicit
backend, Nozomi minimum 0.001: the provider tip 0.002 is the last
instruction, after the swap instruction. -/
theorem claim_C1_amended_high_tip_routing_witness :
    chooseProvider none (0.002 : ℚ) = some Provider.NOZOMI ∧
    trade ⟨0.001, 0.00001, 0.001, 0, "DEV2"⟩ (fun _ => "NOZ2") none
        [Instruction.venue "swap2" 0]
        ⟨Direction.SELL, 3, JsNum.num 1, 0.0001, 0.002, none, "W2"⟩ =
      Except.ok ([Instruction.computeBudget 0, Instruction.venue "swap2" 0,
        Instruction.transfer "NOZ2" "W2" (max 0.002 0.001)], some Provider.NOZOMI) := by
  have h := claim_C1_amended_high_tip_routing ⟨0.001, 0.00001, 0.001, 0, "DEV2"⟩
    (fun _ => "NOZ2") none [Instruction.venue "swap2" 0]
    ⟨Direction.SELL, 3, JsNum.num 1, 0.0001, 0.002, none, "W2"⟩ 1 rfl rfl rfl
  refine ⟨h.1, ?_⟩
  rw [h.2.1]
  norm_num [devTipPart]

/-- Claim C3: for every buy request with tip 0 (under the spec-modelled
dev-tip rate of zero, and venue-only market instructions), the compiled
instruction list is exactly one compute-budget instruction first, zero
tip instructions, then the venue swap instructions, and the relay
selection is the standard backend (no provider). -/
theorem claim_C3_zero_tip_buy (c : TipConstants) (pick : Provider → String)
    (env : Option String) (mkt : List Instruction) (p : TradeArgs) (q : ℚ)
    (hs : p.slippagePercent = JsNum.num q)
    (hdir : p.direction = Direction.BUY)
    (ht : p.tipAmountSol = 0)
    (hrate : c.devTipRate = DEV_TIP_RATE)
    (hmkt : ∀ ix ∈ mkt, isVenueIx ix = true) :
    trade c pick env mkt p = Except.ok (Instruction.computeBudget 0 :: mkt, none) ∧
    (Instruction.computeBudget 0 :: mkt).countP (fun ix => isComputeBudgetIx ix) = 1 ∧
    (Instruction.computeBudget 0 :: mkt).countP (fun ix => isTipIx ix) = 0 ∧
    (Instruction.computeBudget 0 :: mkt).head? = some (Instruction.computeBudget 0) := by
  have hprov : chooseProvider p.providedSender p.tipAmountSol = none := by
    rw [ht]
    simp [chooseProvider]
  have hdev : devTipPart c p = [] := by
    unfold devTipPart
    rw [hrate]
    simp [DEV_TIP_RATE]
  have hptp : provTipPart c pick p = [] := by
    unfold provTipPart
    rw [hprov]
  have hcb : mkt.countP (fun ix => isComputeBudgetIx ix) = 0 := by
    rw [List.countP_eq_zero]
    intro ix hix
    simp [isVenueIx_not_computeBudget ix (hmkt ix hix)]
  have htip : mkt.countP (fun ix => isTipIx ix) = 0 := by
    rw [List.countP_eq_zero]
    intro ix hix
    simp [isVenueIx_not_tip ix (hmkt ix hix)]
  refine ⟨?_, ?_, ?_, rfl⟩
  · rw [trade_normal_form c pick env mkt p q hs, hprov, hdev, hptp]
    simp
  · rw [List.countP_cons_of_pos _ _ (by simp [isComputeBudgetIx]), hcb]
  · rw [List.countP_cons_of_neg _ _ (by simp [isTipIx]), htip]

/-- Claim C3 witness: concrete buy of 1.5 with slippage percentage 1
and tip 0 compiles to the compute-budget instruction followed by the
venue swap instruction, with the standard sender. -/
theorem claim_C3_zero_tip_buy_witness :
    trade ⟨0.001, 0.00001, 0.001, DEV_TIP_RATE, "DEV3"⟩ (fun _ => "A3") none
        [Instruction.venue "pumpSwap" 7]
        ⟨Direction.BUY, 1.5, JsNum.num 1, 0.0001, 0, none, "W3"⟩ =
      Except.ok ([Instruction.computeBudget 0, Instruction.venue "pumpSwap" 7], none) := by
  exact (claim_C3_zero_tip_buy ⟨0.001, 0.00001, 0.001, DEV_TIP_RATE, "DEV3"⟩ (fun _ => "A3")
    none [Instruction.venue "pumpSwap" 7]
    ⟨Direction.BUY, 1.5, JsNum.num 1, 0.0001, 0, none, "W3"⟩ 1 rfl rfl rfl rfl
    (by simp [isVenueIx])).1

/-- Claim C9: for every buy with positive amount and positive dev-tip
rate, a tip transferring amount * devTipRate to the dev tip address is
appended directly after the venue swap instructions regardless of the
caller's tip amount (including 0), followed only by the optional
provider tip; sells never receive the dev tip instruction. -/
theorem claim_C9_dev_tip (c : TipConstants) (pick : Provider → String)
    (env : Option String) (mkt : List Instruction) (p : TradeArgs) (q : ℚ)
    (hs : p.slippagePercent = JsNum.num q)
    (hamt : 0 < p.amount) (hrate : 0 < c.devTipRate) :
    (p.direction = Direction.BUY →
      trade c pick env mkt p = Except.ok ((Instruction.computeBudget 0 :: mkt) ++
        [Instruction.transfer c.devTipAddress p.walletPubkey (p.amount * c.devTipRate)] ++
        provTipPart c pick p, chooseProvider p.providedSender p.tipAmountSol)) ∧
    (p.direction = Direction.SELL →
      trade c pick env mkt p = Except.ok ((Instruction.computeBudget 0 :: mkt) ++
        provTipPart c pick p, chooseProvider p.providedSender p.tipAmountSol)) ∧
    (provTipPart c pick p = [] ∨ ∃ prov,
      chooseProvider p.providedSender p.tipAmountSol = some prov ∧
      provTipPart c pick p =
        [Instruction.transfer (pick prov) p.walletPubkey
          (max p.tipAmountSol (c.minTip prov))]) := by
  refine ⟨?_, ?_, ?_⟩
  · intro hdir
    have hdev : devTipPart c p =
        [Instruction.transfer c.devTipAddress p.walletPubkey (p.amount * c.devTipRate)] := by
      unfold devTipPart
      rw [if_pos ⟨hdir, mul_pos hamt hrate⟩]
    rw [trade_normal_form c pick env mkt p q hs, hdev]
  · intro hdir
    have hdev : devTipPart c p = [] := by
      unfold devTipPart
      rw [if_neg (by rw [hdir]; simp)]
    rw [trade_normal_form c pick env mkt p q hs, hdev]
    simp
  · unfold provTipPart
    cases hprov : chooseProvider p.providedSender p.tipAmountSol with
    | none => exact Or.inl rfl
    | some prov =>
      dsimp only
      by_cases h : p.tipAmountSol > 0 ∧ max p.tipAmountSol (c.minTip prov) > 0
      · exact Or.inr ⟨prov, rfl, by rw [if_pos h]⟩
      · exact Or.inl (by rw [if_neg h])

/-- Claim C9 witness: concrete buy of 1.5 with dev-tip rate 0.01 and
caller tip 0 appends the dev tip 0.015 after the swap instruction; the
same request as a sell does not. -/
theorem claim_C9_dev_tip_witness :
    trade ⟨0.001, 0.00001, 0.001, 0.01, "DEV9"⟩ (fun _ => "A9") none
        [Instruction.venue "swap9" 0]
        ⟨Direction.BUY, 1.5, JsNum.num 1, 0.0001, 0, none, "W9"⟩ =
      Except.ok ([Instruction.computeBudget 0, Instruction.venue "swap9" 0,
        Instruction.transfer "DEV9" "W9" 0.015], none) ∧
    trade ⟨0.001, 0.00001, 0.001, 0.01, "DEV9"⟩ (fun _ => "A9") none
        [Instruction.venue "swap9" 0]
        ⟨Direction.SELL, 1.5, JsNum.num 1, 0.0001, 0, none, "W9"⟩ =
      Except.ok ([Instruction.computeBudget 0, Instruction.venue "swap9" 0], none) := by
  constructor
  · have h := (claim_C9_dev_tip ⟨0.001, 0.00001, 0.001, 0.01, "DEV9"⟩ (fun _ => "A9") none
      [Instruction.venue "swap9" 0]
      ⟨Direction.BUY, 1.5, JsNum.num 1, 0.0001, 0, none, "W9"⟩ 1 rfl (by norm_num)
      (by norm_num)).1 rfl
    rw [h]
    norm_num [provTipPart, chooseProvider]
  · have h := (claim_C9_dev_tip ⟨0.001, 0.00001, 0.001, 0.01, "DEV9"⟩ (fun _ => "A9") none
      [Instruction.venue "swap9" 0]
      ⟨Direction.SELL, 1.5, JsNum.num 1, 0.0001, 0, none, "W9"⟩ 1 rfl (by norm_num)
      (by norm_num)).2.1 rfl
    rw [h]
    norm_num [provTipPart, chooseProvider]

end SolanaTrade
